import Mathlib

/-!
Verification development for the TrackHub equipment-maintenance tracker.

This file gives a shallow embedding, in Lean, of the status-synchronization
and safety-invariant subsystem of the tracker: the intervention-outcome to
equipment-status rule (`InterventionService._update_equipment_status` and its
caller `InterventionService.update_intervention`), the user safety guards
(`UserService.update_user`, `UserService.delete_user`), the application-level
cascade delete (`EquipmentService.delete_equipment`), the default-deny request
gate (`global_security_check` in `app.py` together with the `public_route`
marker), and the user serialization (`User.to_dict` in `models.py`).

Persistence is modelled as explicit list-valued stores passed in and out of
each operation; a committed database state is the store returned by an
operation.  Python exceptions (`AttributeError`, `ValueError`) are modelled
with `Except`: an operation that raises returns `.error` and, since no commit
is reached, the caller's store is unchanged.
-/

namespace TrackHub

/-- Python exceptions that the embedded operations can raise. -/
inductive PyError where
  | attributeError (msg : String)
  | valueError (msg : String)
deriving Repr, DecidableEq

/-- Row of the `equipment` table (`models.py`, class `Equipment`). -/
structure Equipment where
  equipment_id : Nat
  name : String
  description : Option String
  type_id : Nat
  status_id : Nat
  location_id : Option Nat
deriving Repr, DecidableEq

/-- Row of the `intervention` table (`models.py`, class `Intervention`).
Dates are modelled as `(year, month, day)` triples. -/
structure Intervention where
  intervention_id : Nat
  date : Nat × Nat × Nat
  description : Option String
  duration_minutes : Nat
  equipment_id : Option Nat
  user_id : Option Nat
  outcome_id : Option Nat
deriving Repr, DecidableEq

/-- Row of the `user` table (`models.py`, class `User`). -/
structure User where
  user_id : Nat
  username : String
  password_hash : String
  role : String
  first_name : String
  last_name : String
  email : Option String
  phone : Option String
deriving Repr, DecidableEq

namespace Roles

/-- Role constant `Roles.ADMIN` from `models.py`. -/
def ADMIN : String := "admin"

/-- Role constant `Roles.TECHNICIAN` from `models.py`. -/
def TECHNICIAN : String := "technician"

end Roles

/-- Primary-key lookup `Equipment.query.get(equipment_id)`. -/
def getEquipment : List Equipment → Nat → Option Equipment
  | [], _ => none
  | e :: es, eid => if e.equipment_id = eid then some e else getEquipment es eid

/-- In-place mutation of the record returned by `Equipment.query.get`:
set the `status_id` column of the first row with the given id. -/
def setStatusFirst : List Equipment → Nat → Nat → List Equipment
  | [], _, _ => []
  | e :: es, eid, s =>
    if e.equipment_id = eid then { e with status_id := s } :: es
    else e :: setStatusFirst es eid s

/-- Removal `db.session.delete(equipment)` of the row returned by
`Equipment.query.get`: drop the first row with the given id. -/
def removeEquipmentFirst : List Equipment → Nat → List Equipment
  | [], _ => []
  | e :: es, eid =>
    if e.equipment_id = eid then es else e :: removeEquipmentFirst es eid

/-- Primary-key lookup `Intervention.query.get(intervention_id)`. -/
def getIntervention : List Intervention → Nat → Option Intervention
  | [], _ => none
  | i :: is_, iid => if i.intervention_id = iid then some i else getIntervention is_ iid

/-- Write back the mutated intervention object at commit: replace the first
row with the given id. -/
def setInterventionFirst : List Intervention → Nat → Intervention → List Intervention
  | [], _, _ => []
  | i :: is_, iid, v =>
    if i.intervention_id = iid then v :: is_ else i :: setInterventionFirst is_ iid v

/-- Primary-key lookup `User.query.get(user_id)`. -/
def getUser : List User → Nat → Option User
  | [], _ => none
  | u :: us, uid => if u.user_id = uid then some u else getUser us uid

/-- Write back the mutated user object at commit: replace the first row with
the given id. -/
def setUserFirst : List User → Nat → User → List User
  | [], _, _ => []
  | u :: us, uid, v =>
    if u.user_id = uid then v :: us else u :: setUserFirst us uid v

/-- Removal `db.session.delete(user)` of the row returned by
`User.query.get`: drop the first row with the given id. -/
def removeUserFirst : List User → Nat → List User
  | [], _ => []
  | u :: us, uid => if u.user_id = uid then us else u :: removeUserFirst us uid

/-- Count `User.query.filter_by(role=Roles.ADMIN).count()`. -/
def adminCount (us : List User) : Nat :=
  (us.filter (fun u => u.role == Roles.ADMIN)).length

/-- Python truthiness of a nullable integer column or value: `None` and `0`
are falsy, every other integer is truthy. -/
def pyTruthy : Option Nat → Bool
  | none => false
  | some n => n != 0

/-- Committed database state for the equipment/intervention subsystem. -/
structure DBState where
  equipments : List Equipment
  interventions : List Intervention
deriving Repr, DecidableEq

namespace InterventionService

/-- Business-rule constant `InterventionService.OUTCOME_RESOLVED`. -/
def OUTCOME_RESOLVED : Nat := 1

/-- Business-rule constant `InterventionService.OUTCOME_MONITORING`. -/
def OUTCOME_MONITORING : Nat := 2

/-- Business-rule constant `InterventionService.OUTCOME_PENDING`. -/
def OUTCOME_PENDING : Nat := 3

/-- Business-rule constant `InterventionService.STATUS_WORKING`. -/
def STATUS_WORKING : Nat := 1

/-- Business-rule constant `InterventionService.STATUS_UNDER_REPAIR`. -/
def STATUS_UNDER_REPAIR : Nat := 2

/-- Embedding of `InterventionService._update_equipment_status`
(`src/services/intervention_service.py`, lines 240-262).

The `elif` guard in the source reads
`outcome_id == InterventionService.OUTCOME_PENDING | outcome_id == Intervention.Service.OUTCOME_MONITORING`.
In Python the bitwise `|` binds tighter than `==`, so this is the chained
comparison `outcome_id == (OUTCOME_PENDING | outcome_id) == Intervention.Service.OUTCOME_MONITORING`.
The chain first evaluates `outcome_id == (3 | outcome_id)`; when that link is
false the whole condition is false and the right operand is never evaluated;
when it is true, Python evaluates `Intervention.Service`, an attribute that
does not exist on the `Intervention` model class, and raises `AttributeError`
before any status assignment. -/
def update_equipment_status (es : List Equipment) (equipment_id outcome_id : Nat) :
    Except PyError (List Equipment) :=
  match getEquipment es equipment_id with
  | none => .ok es
  | some _ =>
    if outcome_id = OUTCOME_RESOLVED then
      .ok (setStatusFirst es equipment_id STATUS_WORKING)
    else if outcome_id = (OUTCOME_PENDING ||| outcome_id) then
      .error (.attributeError "type object Intervention has no attribute Service")
    else
      .ok es

/-- Partial-update payload for `InterventionService.update_intervention`: a
field is `some v` when the corresponding key is in the `data` dict.  Integer
values are modelled already coerced (the `int(...)` casts in the source are
assumed to succeed, as they do for the JSON payloads the routes send). -/
structure UpdateData where
  description : Option String := none
  duration_minutes : Option Nat := none
  date : Option String := none
  technician_id : Option Nat := none
  equipment_id : Option Nat := none
  outcome_id : Option Nat := none
deriving Repr, DecidableEq

/-- Gregorian leap-year test, as used by the stdlib date validation. -/
def isLeapYear (y : Nat) : Bool :=
  (y % 4 == 0 && y % 100 != 0) || y % 400 == 0

/-- Number of days in a month, as used by the stdlib date validation. -/
def daysInMonth (y m : Nat) : Nat :=
  if m = 2 then (if isLeapYear y then 29 else 28)
  else if m = 4 ∨ m = 6 ∨ m = 9 ∨ m = 11 then 30
  else 31

/-- Model of the external stdlib collaborator
`datetime.strptime(s, "%Y-%m-%d").date()`: parse a `YYYY-MM-DD` string into a
`(year, month, day)` triple, or fail (`ValueError`, modelled as `none`) when
the string is not a valid calendar date in that format. -/
def strptimeYMD (s : String) : Option (Nat × Nat × Nat) :=
  match s.splitOn "-" with
  | [ys, ms, ds] =>
    match ys.toNat?, ms.toNat?, ds.toNat? with
    | some y, some m, some d =>
      if ys.length = 4 ∧ 1 ≤ m ∧ m ≤ 12 ∧ 1 ≤ d ∧ d ≤ daysInMonth y m then
        some (y, m, d)
      else none
    | _, _, _ => none
  | _ => none

/-- Embedding of `InterventionService.update_intervention`
(`src/services/intervention_service.py`, lines 81-125).

Field assignments mutate the fetched intervention object; `db.session.commit`
at the end persists the mutated intervention together with any equipment
status change made by `_update_equipment_status`.  When that helper raises,
the exception propagates before the commit, so the committed state is
unchanged; this is modelled by returning `.error` without a new state.
`outcome_to_check` is `new_outcome_id if new_outcome_id else
intervention.outcome_id`, evaluated after the assignments, and the rule runs
only when `intervention.equipment_id and outcome_to_check` is truthy. -/
def update_intervention (st : DBState) (intervention_id : Nat) (data : UpdateData) :
    Except PyError (DBState × Option Intervention) :=
  match getIntervention st.interventions intervention_id with
  | none => .ok (st, none)
  | some itv0 =>
    let itv1 := match data.description with
      | some v => { itv0 with description := some v }
      | none => itv0
    let itv2 := match data.duration_minutes with
      | some v => { itv1 with duration_minutes := v }
      | none => itv1
    let itv3 := match data.date with
      | some s =>
        if s ≠ "" then
          match strptimeYMD s with
          | some d => { itv2 with date := d }
          | none => itv2
        else itv2
      | none => itv2
    let itv4 := match data.technician_id with
      | some v => { itv3 with user_id := some v }
      | none => itv3
    let itv5 := match data.equipment_id with
      | some v => { itv4 with equipment_id := some v }
      | none => itv4
    let new_outcome_id : Option Nat := data.outcome_id
    let itv6 := match data.outcome_id with
      | some v => { itv5 with outcome_id := some v }
      | none => itv5
    let outcome_to_check : Option Nat :=
      if pyTruthy new_outcome_id then new_outcome_id else itv6.outcome_id
    if pyTruthy itv6.equipment_id ∧ pyTruthy outcome_to_check then
      match update_equipment_status st.equipments (itv6.equipment_id.getD 0)
          (outcome_to_check.getD 0) with
      | .error e => .error e
      | .ok es =>
        .ok ({ equipments := es,
               interventions := setInterventionFirst st.interventions intervention_id itv6 },
             some itv6)
    else
      .ok ({ st with
             interventions := setInterventionFirst st.interventions intervention_id itv6 },
           some itv6)

/-- Sequential double application of the status-synchronization rule to the
same equipment and outcome, used to state the idempotence property. -/
def apply_outcome_twice (es : List Equipment) (equipment_id outcome_id : Nat) :
    Except PyError (List Equipment) :=
  (update_equipment_status es equipment_id outcome_id).bind
    (fun es2 => update_equipment_status es2 equipment_id outcome_id)

end InterventionService

namespace EquipmentService

/-- Embedding of `EquipmentService.delete_equipment`
(`src/services/equipment_service.py`, lines 89-113): look up the equipment;
when absent return `False`; otherwise delete every intervention whose
`equipment_id` column equals the given id (application-level cascade), delete
the equipment row, commit, and return `True`. -/
def delete_equipment (st : DBState) (equipment_id : Nat) : DBState × Bool :=
  match getEquipment st.equipments equipment_id with
  | none => (st, false)
  | some _ =>
    ({ equipments := removeEquipmentFirst st.equipments equipment_id,
       interventions :=
         st.interventions.filter (fun i => !(i.equipment_id == some equipment_id)) },
     true)

end EquipmentService

namespace UserService

/-- Partial-update payload for `UserService.update_user`: a field is `some v`
when the corresponding key is in the `data` dict. -/
structure UserUpdateData where
  first_name : Option String := none
  last_name : Option String := none
  email : Option String := none
  phone : Option String := none
  role : Option String := none
deriving Repr, DecidableEq

/-- Field assignments of `UserService.update_user` after both guards pass
(`src/services/user_service.py`, lines 138-145). -/
def apply_user_updates (user : User) (data : UserUpdateData) : User :=
  let u1 := match data.first_name with
    | some v => { user with first_name := v }
    | none => user
  let u2 := match data.last_name with
    | some v => { u1 with last_name := v }
    | none => u1
  let u3 := match data.email with
    | some v => { u2 with email := some v }
    | none => u2
  let u4 := match data.phone with
    | some v => { u3 with phone := some v }
    | none => u3
  match data.role with
  | some v => { u4 with role := v }
  | none => u4

/-- Embedding of `UserService.update_user`
(`src/services/user_service.py`, lines 104-148).  The guards only fire when
the `role` key is present in `data`: first the last-admin demotion guard
(current role admin, requested role not admin, pre-mutation admin count at
most one), then the technician-promotion guard; both raise `ValueError`
before any field assignment. -/
def update_user (us : List User) (user_id : Nat) (data : UserUpdateData) :
    Except PyError (List User × Option User) :=
  match getUser us user_id with
  | none => .ok (us, none)
  | some user =>
    let guards : Except PyError Unit :=
      match data.role with
      | some new_role =>
        if user.role = Roles.ADMIN ∧ new_role ≠ Roles.ADMIN ∧ adminCount us ≤ 1 then
          .error (.valueError "Cannot change role: This is the only Administrator left.")
        else if user.role = Roles.TECHNICIAN ∧ new_role = Roles.ADMIN then
          .error (.valueError
            "Operation Forbidden: A Technician cannot be promoted to Administrator.")
        else .ok ()
      | none => .ok ()
    match guards with
    | .error e => .error e
    | .ok _ =>
      let u := apply_user_updates user data
      .ok (setUserFirst us user_id u, some u)

/-- Embedding of `UserService.delete_user`
(`src/services/user_service.py`, lines 150-167): absent user returns `False`;
deleting a user with role admin while the pre-mutation admin count is at most
one raises `ValueError`; otherwise the row is removed and `True` returned. -/
def delete_user (us : List User) (user_id : Nat) : Except PyError (List User × Bool) :=
  match getUser us user_id with
  | none => .ok (us, false)
  | some user =>
    if user.role = Roles.ADMIN ∧ adminCount us ≤ 1 then
      .error (.valueError
        "Cannot delete user: This is the only Administrator left in the system.")
    else
      .ok (removeUserFirst us user_id, true)

end UserService

/-- JSON scalar values appearing in the serializations. -/
inductive JsonVal where
  | jnum (n : Nat)
  | jstr (s : String)
  | jnull
deriving Repr, DecidableEq

/-- JSON value of a nullable string column. -/
def optStr : Option String → JsonVal
  | some s => .jstr s
  | none => .jnull

/-- Embedding of `User.to_dict` (`src/models.py`, lines 155-171): the DTO for
API responses, listing exactly the seven keys the source returns. -/
def User.to_dict (u : User) : List (String × JsonVal) :=
  [("user_id", .jnum u.user_id),
   ("username", .jstr u.username),
   ("role", .jstr u.role),
   ("first_name", .jstr u.first_name),
   ("last_name", .jstr u.last_name),
   ("email", optStr u.email),
   ("phone", optStr u.phone)]

/-- Registered view functions of the application, paired with the value of
`getattr(view_func, 'is_public', False)`: the `public_route` decorator
(`src/utils/security.py`) sets `is_public = True` on exactly the handlers it
wraps — `user.login_api`, `user.logout_api` and `web.view_login_form`.  Every
other registered handler, including `user.get_current_user_status`, carries
no `is_public` attribute, so the lookup defaults to `False`. -/
def view_functions : List (String × Bool) :=
  [("user.get_all_technicians", false),
   ("user.create_user", false),
   ("user.login_api", true),
   ("user.logout_api", true),
   ("user.get_current_user_status", false),
   ("user.list_items", false),
   ("user.manage_single_resource", false),
   ("equipment.list_items", false),
   ("equipment.create_item", false),
   ("equipment.manage_single_resource", false),
   ("equipment.export_items", false),
   ("interventions.list_interventions", false),
   ("interventions.create_intervention", false),
   ("interventions.manage_single_intervention", false),
   ("interventions.export_items", false),
   ("locations.get_locations_stats", false),
   ("locations.create_item", false),
   ("locations.manage_single_location", false),
   ("home.get_dashboard_summary", false),
   ("home.get_my_activity", false),
   ("home.get_priority_list", false),
   ("web.dashboard", false),
   ("web.view_equipment", false),
   ("web.view_new_equipment", false),
   ("web.view_equipment_details", false),
   ("web.view_edit_equipment", false),
   ("web.view_interventions", false),
   ("web.view_interventions_details", false),
   ("web.view_edit_intervention", false),
   ("web.view_new_intervention", false),
   ("web.view_location", false),
   ("web.view_new_location", false),
   ("web.view_edit_location", false),
   ("web.view_users", false),
   ("web.view_users_details", false),
   ("web.view_new_user", false),
   ("web.view_edit_user", false),
   ("web.view_login_form", true),
   ("web.get_options", false),
   ("service_worker", false)]

/-- Lookup `getattr(app.view_functions.get(endpoint), 'is_public', False)`. -/
def lookupIsPublic (endpoint : String) : Bool :=
  match view_functions.find? (fun p => p.fst == endpoint) with
  | some p => p.snd
  | none => false

/-- Result of the `before_request` hook: either the hook returns `None` and
dispatch proceeds to the view, or it returns
`app.login_manager.unauthorized()` (a redirect to the login view). -/
inductive GateResult where
  | proceed
  | unauthorized
deriving Repr, DecidableEq

/-- Model of `str.startswith`: the first string starts with the second. -/
def strStartsWith (s pre : String) : Bool :=
  pre.data.isPrefixOf s.data

/-- Embedding of `global_security_check` (`src/app.py`, lines 36-58): allow
static assets; allow endpoints whose registered handler carries a truthy
`is_public` attribute; otherwise allow only authenticated requesters and
reject everyone else.  `endpoint` is `none` when no route matched. -/
def global_security_check (endpoint : Option String) (is_authenticated : Bool) :
    GateResult :=
  match endpoint with
  | some ep =>
    if strStartsWith ep "static" then .proceed
    else if lookupIsPublic ep then .proceed
    else if is_authenticated then .proceed
    else .unauthorized
  | none =>
    if is_authenticated then .proceed else .unauthorized

/-- Response body and HTTP status of the "who am I" endpoint. -/
structure MeResponse where
  authenticated : Bool
  user : Option (List (String × JsonVal))
  http_status : Nat
deriving Repr, DecidableEq

/-- Embedding of `get_current_user_status` (`src/routes/user.py`, lines
137-174), the handler bound to `GET /api/users/me`: the body the handler
itself produces once dispatch reaches it, for an authenticated requester
(`some u`) or a guest (`none`).  Both branches answer HTTP 200. -/
def get_current_user_status (current_user : Option User) : MeResponse :=
  match current_user with
  | some u => { authenticated := true, user := some u.to_dict, http_status := 200 }
  | none => { authenticated := false, user := none, http_status := 200 }

/-! Concrete store fixtures used to evaluate the embedded operations. -/

/-- Equipment row with id 1 whose status is WORKING (1). -/
def eqWorking : Equipment :=
  { equipment_id := 1, name := "Printer", description := none,
    type_id := 1, status_id := 1, location_id := none }

/-- Equipment row with id 2 whose status is UNDER_REPAIR (2). -/
def eqBroken : Equipment :=
  { equipment_id := 2, name := "Router", description := some "packet loss",
    type_id := 2, status_id := 2, location_id := some 1 }

/-- Intervention row on equipment 1 with stored outcome PENDING (3). -/
def itvStoredPending : Intervention :=
  { intervention_id := 1, date := (2024, 1, 10), description := some "fan noise",
    duration_minutes := 30, equipment_id := some 1, user_id := some 2,
    outcome_id := some 3 }

/-- Intervention row on equipment 1 with stored outcome RESOLVED (1). -/
def itvStoredResolved : Intervention :=
  { intervention_id := 1, date := (2024, 1, 10), description := some "fan noise",
    duration_minutes := 30, equipment_id := some 1, user_id := some 2,
    outcome_id := some 1 }

/-- Store with both equipment rows and the stored-PENDING intervention. -/
def stPending : DBState :=
  { equipments := [eqWorking, eqBroken], interventions := [itvStoredPending] }

/-- Store with both equipment rows and the stored-RESOLVED intervention. -/
def stResolved : DBState :=
  { equipments := [eqWorking, eqBroken], interventions := [itvStoredResolved] }

/-- Partial update that changes only `equipment_id`, to equipment 2. -/
def moveToEq2 : InterventionService.UpdateData := { equipment_id := some 2 }

/-- The sole administrator account of the fixture store. -/
def adminUser : User :=
  { user_id := 1, username := "root", password_hash := "h1", role := "admin",
    first_name := "Ada", last_name := "Admin", email := some "ada@x.org",
    phone := none }

/-- A technician account of the fixture store. -/
def techUser : User :=
  { user_id := 2, username := "tech", password_hash := "h2", role := "technician",
    first_name := "Tim", last_name := "Tech", email := none, phone := none }

/-! Helper lemmas about the list-valued store operations. -/

/-- Looking up an id after setting the status of that id returns the looked-up
row with its status replaced. -/
theorem getEquipment_setStatusFirst (es : List Equipment) (eid s : Nat) :
    getEquipment (setStatusFirst es eid s) eid =
      (getEquipment es eid).map (fun e => { e with status_id := s }) := by
  induction es with
  | nil => rfl
  | cons e es ih =>
    by_cases h : e.equipment_id = eid
    · simp [setStatusFirst, getEquipment, h]
    · simp [setStatusFirst, getEquipment, h, ih]

/-- A lookup misses when the id is not among the stored ids. -/
theorem getEquipment_eq_none_of_not_mem (es : List Equipment) (eid : Nat)
    (h : eid ∉ es.map Equipment.equipment_id) : getEquipment es eid = none := by
  induction es with
  | nil => rfl
  | cons e es ih =>
    simp only [List.map_cons, List.mem_cons, not_or] at h
    have he : ¬ e.equipment_id = eid := fun hh => h.1 hh.symm
    simp [getEquipment, he, ih h.2]

/-- With distinct stored ids, removing an id makes its lookup miss. -/
theorem getEquipment_removeEquipmentFirst (es : List Equipment) (eid : Nat)
    (hnd : (es.map Equipment.equipment_id).Nodup) :
    getEquipment (removeEquipmentFirst es eid) eid = none := by
  induction es with
  | nil => rfl
  | cons e es ih =>
    simp only [List.map_cons, List.nodup_cons] at hnd
    by_cases h : e.equipment_id = eid
    · simp only [removeEquipmentFirst, if_pos h]
      exact getEquipment_eq_none_of_not_mem es eid (h ▸ hnd.1)
    · simp [removeEquipmentFirst, getEquipment, h, ih hnd.2]

/-! Claim theorems. -/

/-- C5: for every existing equipment record, the status-synchronization rule
with outcome RESOLVED (1) completes without error and afterwards the
equipment's `status_id` equals WORKING (1). -/
theorem resolved_outcome_sets_status_working
    (es : List Equipment) (eid : Nat) (e : Equipment)
    (h : getEquipment es eid = some e) :
    InterventionService.update_equipment_status es eid
        InterventionService.OUTCOME_RESOLVED =
      .ok (setStatusFirst es eid InterventionService.STATUS_WORKING) ∧
    getEquipment (setStatusFirst es eid InterventionService.STATUS_WORKING) eid =
      some { e with status_id := InterventionService.STATUS_WORKING } := by
  refine ⟨?_, ?_⟩
  · simp [InterventionService.update_equipment_status, h]
  · rw [getEquipment_setStatusFirst, h]
    rfl

/-- Witness for C5 at a concrete store: equipment 2 starts UNDER_REPAIR and
outcome RESOLVED leaves it WORKING. -/
theorem resolved_outcome_sets_status_working_witness :
    InterventionService.update_equipment_status [eqBroken] 2
        InterventionService.OUTCOME_RESOLVED =
      .ok (setStatusFirst [eqBroken] 2 InterventionService.STATUS_WORKING) ∧
    getEquipment (setStatusFirst [eqBroken] 2 InterventionService.STATUS_WORKING) 2 =
      some { eqBroken with status_id := InterventionService.STATUS_WORKING } :=
  resolved_outcome_sets_status_working [eqBroken] 2 eqBroken (by rfl)

/-- C1: the claim fails on the code.  On an existing equipment record whose
status is WORKING, outcome MONITORING (2) leaves the store unchanged (the
chained comparison is false, so no status assignment happens and the status
never becomes UNDER_REPAIR), and outcome PENDING (3) raises `AttributeError`
from the malformed `Intervention.Service` attribute path instead of
completing. -/
theorem pending_or_monitoring_does_not_set_under_repair :
    InterventionService.update_equipment_status [eqWorking] 1
        InterventionService.OUTCOME_MONITORING = .ok [eqWorking] ∧
    eqWorking.status_id = InterventionService.STATUS_WORKING ∧
    InterventionService.update_equipment_status [eqWorking] 1
        InterventionService.OUTCOME_PENDING =
      .error (.attributeError "type object Intervention has no attribute Service") :=
  ⟨rfl, rfl, rfl⟩

/-- C7: the claim fails on the code.  For an existing equipment record and
outcome PENDING (3), already the first invocation of the rule raises
`AttributeError`, and so does the two-fold sequential application, instead of
the second invocation succeeding with an unchanged status. -/
theorem apply_outcome_twice_pending_raises :
    InterventionService.apply_outcome_twice [eqWorking] 1
        InterventionService.OUTCOME_PENDING =
      .error (.attributeError "type object Intervention has no attribute Service") ∧
    InterventionService.update_equipment_status [eqWorking] 1
        InterventionService.OUTCOME_PENDING =
      .error (.attributeError "type object Intervention has no attribute Service") :=
  ⟨rfl, rfl⟩

/-- C8: for every equipment id that does not resolve to a stored record and
every outcome id, the status-synchronization rule is a silent no-op: it
returns without error and the store is unchanged. -/
theorem missing_equipment_silent_noop
    (es : List Equipment) (eid oid : Nat) (h : getEquipment es eid = none) :
    InterventionService.update_equipment_status es eid oid = .ok es := by
  simp [InterventionService.update_equipment_status, h]

/-- Witness for C8 at a concrete store and the PENDING outcome. -/
theorem missing_equipment_silent_noop_witness :
    InterventionService.update_equipment_status [eqWorking] 99
        InterventionService.OUTCOME_PENDING = .ok [eqWorking] :=
  missing_equipment_silent_noop [eqWorking] 99
    InterventionService.OUTCOME_PENDING (by rfl)

/-- C6: the claim fails on the code at its own example.  Updating only the
`equipment_id` of an intervention does carry over the stored outcome (with
stored outcome RESOLVED the newly referenced equipment becomes WORKING), but
with stored outcome PENDING the carried-over outcome hits the defective
`elif` and `update_intervention` raises `AttributeError` before the commit:
the target equipment never becomes UNDER_REPAIR. -/
theorem carried_over_pending_outcome_raises :
    InterventionService.update_intervention stPending 1 moveToEq2 =
      .error (.attributeError "type object Intervention has no attribute Service") ∧
    InterventionService.update_intervention stResolved 1 moveToEq2 =
      .ok ({ equipments := [eqWorking, { eqBroken with status_id := 1 }],
             interventions := [{ itvStoredResolved with equipment_id := some 2 }] },
           some { itvStoredResolved with equipment_id := some 2 }) :=
  ⟨rfl, rfl⟩

/-- C9: deleting an existing equipment record returns `True` and first
deletes every intervention referencing it, so no interventions reference the
deleted id afterwards and (for a store with distinct ids) neither does the
equipment table; deleting a missing id returns `False` and changes nothing. -/
theorem delete_equipment_cascades (st : DBState) (eid : Nat) :
    ((getEquipment st.equipments eid).isSome →
      (EquipmentService.delete_equipment st eid).2 = true ∧
      (∀ i ∈ (EquipmentService.delete_equipment st eid).1.interventions,
        i.equipment_id ≠ some eid) ∧
      ((st.equipments.map Equipment.equipment_id).Nodup →
        getEquipment (EquipmentService.delete_equipment st eid).1.equipments eid =
          none)) ∧
    (getEquipment st.equipments eid = none →
      EquipmentService.delete_equipment st eid = (st, false)) := by
  constructor
  · intro hsome
    match hq : getEquipment st.equipments eid with
    | none => rw [hq] at hsome; simp at hsome
    | some e =>
      refine ⟨?_, ?_, ?_⟩
      · simp [EquipmentService.delete_equipment, hq]
      · intro i hi
        simp only [EquipmentService.delete_equipment, hq, List.mem_filter] at hi
        simpa using hi.2
      · intro hnd
        simp only [EquipmentService.delete_equipment, hq]
        exact getEquipment_removeEquipmentFirst st.equipments eid hnd
  · intro hnone
    simp [EquipmentService.delete_equipment, hnone]

/-- Witness for C9 at a concrete store: equipment 1 has one referencing
intervention; after deletion nothing references id 1. -/
theorem delete_equipment_cascades_witness :
    (EquipmentService.delete_equipment stPending 1).2 = true ∧
    (∀ i ∈ (EquipmentService.delete_equipment stPending 1).1.interventions,
      i.equipment_id ≠ some 1) ∧
    getEquipment (EquipmentService.delete_equipment stPending 1).1.equipments 1 =
      none :=
  have h := (delete_equipment_cascades stPending 1).1 (by rfl)
  ⟨h.1, h.2.1, h.2.2 (by decide)⟩

/-- C2: when the pre-mutation admin count is at most one, updating the sole
administrator with a requested role different from admin and deleting that
administrator both raise the last-administrator `ValueError`, and since no
commit is reached the store is unchanged. -/
theorem last_admin_demotion_and_deletion_blocked
    (us : List User) (uid : Nat) (data : UserService.UserUpdateData)
    (u : User) (new_role : String)
    (hu : getUser us uid = some u) (hrole : u.role = Roles.ADMIN)
    (hcount : adminCount us ≤ 1)
    (hr : data.role = some new_role) (hne : new_role ≠ Roles.ADMIN) :
    UserService.update_user us uid data =
      .error (.valueError "Cannot change role: This is the only Administrator left.") ∧
    UserService.delete_user us uid =
      .error (.valueError
        "Cannot delete user: This is the only Administrator left in the system.") := by
  constructor
  · simp [UserService.update_user, hu, hr, hrole, hne, hcount]
  · simp [UserService.delete_user, hu, hrole, hcount]

/-- Witness for C2 at a concrete store with a single administrator and a
requested demotion to technician. -/
theorem last_admin_demotion_and_deletion_blocked_witness :
    UserService.update_user [adminUser] 1 { role := some "technician" } =
      .error (.valueError "Cannot change role: This is the only Administrator left.") ∧
    UserService.delete_user [adminUser] 1 =
      .error (.valueError
        "Cannot delete user: This is the only Administrator left in the system.") :=
  last_admin_demotion_and_deletion_blocked [adminUser] 1 { role := some "technician" }
    adminUser "technician" (by rfl) (by rfl) (by decide) (by rfl) (by decide)

/-- C3: for every stored user whose current role is technician and for every
admin count, an update requesting role admin raises the promotion-forbidden
`ValueError`, so the user's role is left unchanged. -/
theorem technician_promotion_forbidden
    (us : List User) (uid : Nat) (data : UserService.UserUpdateData) (u : User)
    (hu : getUser us uid = some u) (hrole : u.role = Roles.TECHNICIAN)
    (hr : data.role = some Roles.ADMIN) :
    UserService.update_user us uid data =
      .error (.valueError
        "Operation Forbidden: A Technician cannot be promoted to Administrator.") := by
  simp [UserService.update_user, hu, hr, hrole, Roles.ADMIN, Roles.TECHNICIAN]

/-- Witness for C3 at a concrete store holding one admin and one technician. -/
theorem technician_promotion_forbidden_witness :
    UserService.update_user [adminUser, techUser] 2 { role := some Roles.ADMIN } =
      .error (.valueError
        "Operation Forbidden: A Technician cannot be promoted to Administrator.") :=
  technician_promotion_forbidden [adminUser, techUser] 2 { role := some Roles.ADMIN }
    techUser (by rfl) (by rfl) (by rfl)

/-- C4: the claim fails on the code.  The handler bound to
`GET /api/users/me` carries no `is_public` marker, so the default-deny gate
rejects an unauthenticated request to it (redirect to the login view) before
dispatch; the handler itself, were it reached, would answer HTTP 200 with an
`authenticated` flag for guests and members alike. -/
theorem me_endpoint_rejected_when_unauthenticated :
    global_security_check (some "user.get_current_user_status") false =
      GateResult.unauthorized ∧
    global_security_check (some "user.get_current_user_status") true =
      GateResult.proceed ∧
    get_current_user_status none =
      { authenticated := false, user := none, http_status := 200 } :=
  ⟨by rfl, by rfl, rfl⟩

/-- C10: the public user serialization never contains the `password_hash`
key, and its output does not depend on the stored password hash: replacing
the hash leaves the dictionary unchanged. -/
theorem user_to_dict_excludes_password_hash (u : User) (h : String) :
    User.to_dict { u with password_hash := h } = User.to_dict u ∧
    "password_hash" ∉ (User.to_dict u).map Prod.fst := by
  refine ⟨rfl, ?_⟩
  simp [User.to_dict]

end TrackHub
